import Mathlib

/-!
Verification development for the movie-recommendation edge function
(supabase/functions/recommend-movies/index.ts, second revision) and the
feedback-loop client (src/pages/Index.tsx).

Numbers are modelled as rationals, external capabilities (embedding,
nearest-neighbour retrieval, text generation) as explicit stand-in
parameters, and the HTTP response as an inductive with either a
recommendation list (status 200) or a status plus a single error-message
string, mirroring the JSON bodies the function produces.
-/

/-- A rated movie sent by the caller (interface RatingInput). -/
structure RatingInput where
  title : String
  rating : Rat
  description : Option String := none
deriving Repr, DecidableEq

/-- The request body (interface RequestBody); ratings is optional so that a
request without a ratings field, such as the description-mode request, can be
represented. The handler destructures only ratings, likes, dislikes and
matchCount; a description field is ignored by it. -/
structure RequestBody where
  ratings : Option (List RatingInput) := none
  likes : Option String := none
  dislikes : Option String := none
  matchCount : Option Int := none
  description : Option String := none
deriving Repr, DecidableEq

/-- A corpus row of the imdb_movies table, as selected by the handler. -/
structure DbMovie where
  id : Int
  movie_title : String
  genres : List String
  imdb_rating : Option Rat := none
  overview : Option String := none
  director : Option String := none
  released_year : Option Int := none
  poster_link : Option String := none
deriving Repr, DecidableEq

/-- Outcome of the embedding call: a vector, a non-ok HTTP status, or an ok
response carrying no vector. -/
inductive EmbedOutcome where
  | ok (vec : List Rat)
  | httpError (status : Nat)
  | noVector
deriving Repr, DecidableEq

/-- Outcome of the text-generation call: a parsed list of id-explanation
pairs, an ok response whose body fails to parse, or a non-ok response. -/
inductive LlmOutcome where
  | ok (entries : List (Int × String))
  | parseFailure
  | httpFailure
deriving Repr, DecidableEq

/-- A movie with merged similarity, final score and the transient primary
genre (the object built by the scored map, before _primaryGenre is
stripped). -/
structure ScoredMovie where
  movie : DbMovie
  similarity : Rat
  final_score : Rat
  primaryGenre : String
deriving Repr, DecidableEq

/-- One output item of the recommendations array. -/
structure Recommendation where
  id : Int
  movie_title : String
  genres : List String
  imdb_rating : Option Rat
  overview : Option String
  director : Option String
  released_year : Option Int
  poster_link : Option String
  similarity : Rat
  final_score : Rat
  explanation : Option String
deriving Repr, DecidableEq

/-- The HTTP response: a 200 with a recommendation list, or an error status
with a single error-message string. -/
inductive Response where
  | success (recommendations : List Recommendation)
  | error (status : Nat) (msg : String)
deriving Repr, DecidableEq

/-- HTTP status of a response (success bodies are sent with status 200). -/
def Response.status : Response → Nat
  | .success _ => 200
  | .error s _ => s

/-- Whether the response is a success (200 with a recommendation list). -/
def Response.isSuccess : Response → Bool
  | .success _ => true
  | .error _ _ => false

/-- Number of recommendations carried by the response. -/
def Response.recCount : Response → Nat
  | .success l => l.length
  | .error _ _ => 0

/-- Lower-casing of a title as toLowerCase does, mapped over the
characters; written character-wise so that it evaluates by kernel
reduction on concrete inputs. -/
def lowerStr (s : String) : String :=
  ⟨s.data.map Char.toLower⟩

/-- The exclusion set: lower-cased titles of all rated movies
(ratedTitlesLower). -/
def ratedTitlesLower (rs : List RatingInput) : List String :=
  rs.map (fun r => lowerStr r.title)

/-- The dbMovies fetch: rows whose movie_title is among the rated titles
(exact match, as the .in filter does). -/
def dbFetchByTitles (db : List DbMovie) (titles : List String) : List DbMovie :=
  db.filter (fun m => titles.contains m.movie_title)

/-- dbMap.get on the lower-cased title; the JS Map keeps the last binding
for a key, hence getLast? over the rows with that lower-cased title. -/
def dbMapGet (fetched : List DbMovie) (t : String) : Option DbMovie :=
  (fetched.filter (fun m => lowerStr m.movie_title == t)).getLast?

/-- Genres of strongly liked (rating at least 8) resolved movies: the key
set of the likedGenres map (only membership and non-emptiness of the key
set are consumed downstream, so the max-rating values are not tracked). -/
def likedGenresOf (rs : List RatingInput) (fetched : List DbMovie) : List String :=
  rs.foldl
    (fun acc r =>
      if r.rating ≥ (8 : Rat) then
        match dbMapGet fetched (lowerStr r.title) with
        | some m => acc ++ m.genres
        | none => acc
      else acc)
    []

/-- The per-candidate score computation of the scored map: merged
similarity (0 when the id is absent from the retrieval result), normalized
imdb rating with midpoint default 5, genre-overlap affinity, blended final
score, and the transient primary genre. -/
def scoreMovie (retrieved : List (Int × Rat)) (likedG : List String)
    (movie : DbMovie) : ScoredMovie :=
  let similarity := ((retrieved.find? (fun m => m.fst == movie.id)).map Prod.snd).getD 0
  let normalizedImdb := (movie.imdb_rating.getD 5) / 10
  let genres := movie.genres
  let affinity :=
    if likedG.length > 0 ∧ genres.length > 0 then
      (genres.countP (fun g => likedG.contains g) : Rat) / (genres.length : Rat)
    else 0
  { movie := movie
    similarity := similarity
    final_score := 0.6 * similarity + 0.2 * normalizedImdb + 0.2 * affinity
    primaryGenre := genres.headD "Unknown" }

/-- The relation of the sort comparator b.final_score - a.final_score:
a is placed no later than b exactly when its final score is no smaller. -/
def scoreGE (a b : ScoredMovie) : Prop := b.final_score ≤ a.final_score

instance : DecidableRel scoreGE := fun a b => Rat.instDecidableLe b.final_score a.final_score

instance : IsTotal ScoredMovie scoreGE :=
  ⟨fun a b => le_total b.final_score a.final_score⟩

instance : IsTrans ScoredMovie scoreGE :=
  ⟨fun _ _ _ h1 h2 => le_trans h2 h1⟩

/-- The sort comparing by descending final score; the engine's sort is
stable, so any stable sort under the comparator relation models it. -/
def sortByScoreDesc (l : List ScoredMovie) : List ScoredMovie :=
  List.insertionSort scoreGE l

/-- The matchedMovies fetch: corpus rows whose id is among the retrieved
match ids. -/
def matchedMoviesOf (db : List DbMovie) (retrieved : List (Int × Rat)) : List DbMovie :=
  let matchIds := retrieved.map Prod.fst
  db.filter (fun m => matchIds.contains m.id)

/-- The scored list: matched movies scored, already-rated titles filtered
out (case-insensitively), sorted by descending final score. -/
def scoredCandidates (rs : List RatingInput) (db : List DbMovie)
    (retrieved : List (Int × Rat)) : List ScoredMovie :=
  let fetched := dbFetchByTitles db (rs.map (fun r => r.title))
  let likedG := likedGenresOf rs fetched
  sortByScoreDesc
    (((matchedMoviesOf db retrieved).map (scoreMovie retrieved likedG)).filter
      (fun s => !((ratedTitlesLower rs).contains (lowerStr s.movie.movie_title))))

/-- The diversity loop: walk the score-sorted list, skip a candidate whose
primary genre already has 2 admissions, otherwise admit it, and stop as
soon as the admitted list reaches matchCount. -/
def diversityLoop (matchCount : Int) :
    List ScoredMovie → (String → Nat) → List ScoredMovie → List ScoredMovie
  | [], _, acc => acc
  | m :: rest, counts, acc =>
    let g := m.primaryGenre
    let c := counts g
    if c ≥ 2 then diversityLoop matchCount rest counts acc
    else
      let acc2 := acc ++ [m]
      if (acc2.length : Int) ≥ matchCount then acc2
      else diversityLoop matchCount rest (fun x => if x = g then c + 1 else counts x) acc2

/-- The explanation map: id-explanation pairs when the call succeeded and
parsed, empty otherwise. -/
def explanationMapOf (llm : LlmOutcome) : List (Int × String) :=
  match llm with
  | .ok es => es
  | .parseFailure => []
  | .httpFailure => []

/-- explanationMap.get with the last binding winning, then the null
fallback is applied by the caller. -/
def explanationGet (es : List (Int × String)) (id : Int) : Option String :=
  ((es.filter (fun e => e.fst == id)).getLast?).map Prod.snd

/-- Assembly of one output item from a scored movie and the explanation
map (explanation null when the id is absent). -/
def mkRecommendation (es : List (Int × String)) (s : ScoredMovie) : Recommendation :=
  { id := s.movie.id
    movie_title := s.movie.movie_title
    genres := s.movie.genres
    imdb_rating := s.movie.imdb_rating
    overview := s.movie.overview
    director := s.movie.director
    released_year := s.movie.released_year
    poster_link := s.movie.poster_link
    similarity := s.similarity
    final_score := s.final_score
    explanation := explanationGet es s.movie.id }

/-- The serve handler (second revision): validate ratings, check the
Google key, run the embedding stand-in, score and diversify the retrieved
candidates, check the Lovable key, and attach explanations. Retrieval and
corpus fetch are stand-ins (retrieved, db); their error branches rethrow and
are outside the claims under verification. -/
def serveHandler (req : RequestBody) (db : List DbMovie) (hasGoogleKey : Bool)
    (embed : EmbedOutcome) (retrieved : List (Int × Rat)) (hasLovableKey : Bool)
    (llm : LlmOutcome) : Response :=
  match req.ratings with
  | none => .error 400 "ratings array is required"
  | some [] => .error 400 "ratings array is required"
  | some rs =>
    if hasGoogleKey then
      let matchCount := req.matchCount.getD 10
      match embed with
      | .httpError status =>
        if status = 429 then
          Response.error 429 "Rate limit exceeded. Please try again later."
        else
          Response.error 500 ("Embedding generation failed: " ++ toString status)
      | .noVector => Response.error 500 "No embedding returned"
      | .ok _ =>
        let scored := scoredCandidates rs db retrieved
        let diverse := diversityLoop matchCount scored (fun _ => 0) []
        if hasLovableKey then
          Response.success (diverse.map (mkRecommendation (explanationMapOf llm)))
        else
          Response.error 500 "LOVABLE_API_KEY is not configured"
    else
      Response.error 500 "GOOGLE_AI_API_KEY is not configured"

/-- A rated-movie row of the client form (type RatedMovie of the page). -/
structure RatedMovie where
  title : String
  rating : Rat
  description : Option String := none
deriving Repr, DecidableEq

/-- A feedback marker: title and genres of a delivered recommendation
(interface Feedback of the page). -/
structure Feedback where
  title : String
  genres : List String
deriving Repr, DecidableEq

/-- The feedback kind of the more-like-this / less-like-this buttons. -/
inductive FeedbackType where
  | more
  | less
deriving Repr, DecidableEq

/-- The feedback state the page keeps between runs: the two growing marker
lists. -/
structure ClientState where
  moreLike : List Feedback
  lessLike : List Feedback
deriving Repr, DecidableEq

/-- Trimming of surrounding whitespace as the client's trim calls do,
written character-wise so that it evaluates by kernel reduction on
concrete inputs. -/
def trimStr (s : String) : String :=
  ⟨((s.data.dropWhile Char.isWhitespace).reverse.dropWhile Char.isWhitespace).reverse⟩

/-- Array.prototype.join with a separator, as used on the client. -/
def joinSep (sep : String) : List String → String
  | [] => ""
  | [a] => a
  | a :: rest => a ++ sep ++ joinSep sep rest

/-- One feedback fragment: title followed by the comma-joined genres in
parentheses. -/
def fragmentOf (f : Feedback) : String :=
  f.title ++ " (" ++ joinSep ", " f.genres ++ ")"

/-- The semicolon-joined rendering of a feedback list (moreLikeText and
lessLikeText of buildPayload). -/
def feedbackText (fs : List Feedback) : String :=
  joinSep "; " (fs.map fragmentOf)

/-- The filter-Boolean-then-join idiom of buildPayload: empty parts are
dropped before joining. -/
def joinNonempty (sep : String) (parts : List String) : String :=
  joinSep sep (parts.filter (fun p => p ≠ ""))

/-- buildPayload of the page: render the feedback lists, combine them with
the free-text likes and dislikes, and assemble the request body; likes and
dislikes fields are present only when non-empty, a rating's description
only when truthy. -/
def buildPayload (ratedMovies : List RatedMovie) (likes dislikes : String)
    (matchCount : Int) (extraMoreLike extraLessLike : List Feedback) : RequestBody :=
  let moreLikeText := feedbackText extraMoreLike
  let lessLikeText := feedbackText extraLessLike
  let combinedLikes := joinNonempty ". " [trimStr likes, moreLikeText]
  let combinedDislikes := joinNonempty ". " [trimStr dislikes, lessLikeText]
  { ratings := some (ratedMovies.map fun m =>
      { title := trimStr m.title
        rating := m.rating
        description :=
          match m.description with
          | some d => if d = "" then none else some (trimStr d)
          | none => none })
    likes := if combinedLikes = "" then none else some combinedLikes
    dislikes := if combinedDislikes = "" then none else some combinedDislikes
    matchCount := some matchCount
    description := none }

/-- handleFeedback of the page: append the marker of the clicked movie to
the matching list and rebuild the payload for the immediate re-run; the
new state and that payload are returned. -/
def handleFeedback (s : ClientState) (ratedMovies : List RatedMovie)
    (likes dislikes : String) (matchCount : Int) (movie : Recommendation)
    (t : FeedbackType) : ClientState × RequestBody :=
  let fb : Feedback := { title := movie.movie_title, genres := movie.genres }
  let nextMore := match t with | .more => s.moreLike ++ [fb] | .less => s.moreLike
  let nextLess := match t with | .less => s.lessLike ++ [fb] | .more => s.lessLike
  ({ moreLike := nextMore, lessLike := nextLess },
   buildPayload ratedMovies likes dislikes matchCount nextMore nextLess)

/-- feedbackTitles of the page: titles of every marker in either list. -/
def feedbackTitles (s : ClientState) : List String :=
  s.moreLike.map (fun f => f.title) ++ s.lessLike.map (fun f => f.title)

/-- The affordance guard of the results list: the more-like-this and
less-like-this buttons are rendered only when the title has no recorded
feedback. -/
def showsFeedbackButtons (s : ClientState) (title : String) : Bool :=
  !((feedbackTitles s).contains title)

/-! Concrete sample data used by witness theorems: a small corpus, a
retrieval result and a request. The rated title differs in case from its
corpus row, so it resolves nowhere, and the corpus row with the same
lower-cased title is excluded from the output. -/

def mAlpha : DbMovie :=
  { id := 1, movie_title := "Alpha", genres := ["Comedy", "Drama"], imdb_rating := some 8 }

def mBeta : DbMovie := { id := 2, movie_title := "Beta", genres := ["Comedy"] }

def mGamma : DbMovie :=
  { id := 3, movie_title := "Gamma", genres := ["Comedy"], imdb_rating := some 9 }

def mDelta : DbMovie :=
  { id := 4, movie_title := "Delta", genres := [], imdb_rating := some 7 }

def sampleDb : List DbMovie := [mAlpha, mBeta, mGamma, mDelta]

def sampleRet : List (Int × Rat) := [(1, 9/10), (2, 4/5), (3, 7/10), (4, 3/5)]

def sampleRatings : List RatingInput := [{ title := "ALPHA", rating := 9 }]

def sampleReq : RequestBody := { ratings := some sampleRatings, matchCount := some 2 }

def mc0Req : RequestBody := { ratings := some sampleRatings, matchCount := some 0 }

def sampleScored : ScoredMovie :=
  { movie := mGamma, similarity := 7/10, final_score := 3/5, primaryGenre := "Comedy" }

def sampleRec : Recommendation :=
  { id := 3, movie_title := "Gamma", genres := ["Comedy"], imdb_rating := some 9,
    overview := none, director := none, released_year := none, poster_link := none,
    similarity := 7/10, final_score := 3/5, explanation := none }

def sampleState : ClientState := { moreLike := [], lessLike := [] }

/-- Unpacking membership in the scored list: every scored candidate is the
score of some fetched matched movie, and its lower-cased title is outside
the exclusion set. -/
theorem mem_scoredCandidates {rs : List RatingInput} {db : List DbMovie}
    {ret : List (Int × Rat)} {s : ScoredMovie} (h : s ∈ scoredCandidates rs db ret) :
    (∃ m ∈ matchedMoviesOf db ret,
        s = scoreMovie ret (likedGenresOf rs (dbFetchByTitles db (rs.map fun r => r.title))) m) ∧
    (ratedTitlesLower rs).contains (lowerStr s.movie.movie_title) = false := by
  simp only [scoredCandidates, sortByScoreDesc, List.mem_insertionSort] at h
  rw [List.mem_filter] at h
  obtain ⟨hmem, hpred⟩ := h
  rw [List.mem_map] at hmem
  obtain ⟨m, hm, rfl⟩ := hmem
  exact ⟨⟨m, hm, rfl⟩, by simpa using hpred⟩

/-- The diversity loop only deletes elements: its result is a sublist of
the accumulator followed by the remaining input. -/
theorem diversityLoop_sublist (mc : Int) (l : List ScoredMovie) (counts : String → Nat)
    (acc : List ScoredMovie) : (diversityLoop mc l counts acc).Sublist (acc ++ l) := by
  induction l generalizing counts acc with
  | nil => simp [diversityLoop]
  | cons m rest ih =>
    simp only [diversityLoop]
    split
    · exact (ih counts acc).trans
        (List.Sublist.append_left (List.sublist_cons_self m rest) acc)
    · split
      · exact List.Sublist.append_left
          (List.cons_sublist_cons.mpr (List.nil_sublist rest)) acc
      · have h := ih (fun x => if x = m.primaryGenre then counts m.primaryGenre + 1
            else counts x) (acc ++ [m])
        rw [List.append_assoc] at h
        simpa using h

/-- The diversity loop never grows the admitted list beyond the requested
count once the accumulator is below it. -/
theorem diversityLoop_length_le (mc : Int) (l : List ScoredMovie) (counts : String → Nat)
    (acc : List ScoredMovie) (h : (acc.length : Int) < mc) :
    ((diversityLoop mc l counts acc).length : Int) ≤ mc := by
  induction l generalizing counts acc with
  | nil => simpa [diversityLoop] using le_of_lt h
  | cons m rest ih =>
    simp only [diversityLoop]
    split
    · exact ih counts acc h
    · split
      · next hge =>
        simp only [List.length_append, List.length_cons, List.length_nil]
        push_cast
        omega
      · next hlt =>
        apply ih
        simp only [List.length_append, List.length_cons, List.length_nil] at hlt ⊢
        push_cast at hlt ⊢
        omega

/-- The diversity loop keeps at most 2 admitted items per primary genre,
given an accumulator whose per-genre counts agree with the counter and
respect the cap. -/
theorem diversityLoop_countP_le (mc : Int) (l : List ScoredMovie) (counts : String → Nat)
    (acc : List ScoredMovie)
    (hinv : ∀ g, acc.countP (fun s => s.primaryGenre == g) = counts g)
    (hb : ∀ g, counts g ≤ 2) :
    ∀ g, (diversityLoop mc l counts acc).countP (fun s => s.primaryGenre == g) ≤ 2 := by
  induction l generalizing counts acc with
  | nil =>
    intro g
    simpa [diversityLoop, hinv g] using hb g
  | cons m rest ih =>
    simp only [diversityLoop]
    split
    · exact ih counts acc hinv hb
    · next hlt =>
      have hc : counts m.primaryGenre < 2 := by omega
      split
      · intro g
        rw [List.countP_append, hinv g]
        simp only [List.countP_cons, List.countP_nil]
        by_cases hg : m.primaryGenre = g
        · subst hg
          simp
          omega
        · have hbe : (m.primaryGenre == g) = false := beq_eq_false_iff_ne.mpr hg
          simp [hbe]
          exact hb g
      · apply ih
        · intro g
          rw [List.countP_append, hinv g]
          simp only [List.countP_cons, List.countP_nil]
          by_cases hg : g = m.primaryGenre
          · subst hg
            simp
          · have hbe : (m.primaryGenre == g) = false :=
              beq_eq_false_iff_ne.mpr (Ne.symm hg)
            simp [hbe, hg]
        · intro g
          by_cases hg : g = m.primaryGenre
          · subst hg
            simp
            omega
          · simp [hg]
            exact hb g

/-- The full-record fetch by retrieved ids returns at most one row per
retrieved id when the corpus ids are distinct (primary-key property). -/
theorem matchedMovies_length_le (db : List DbMovie) (ret : List (Int × Rat))
    (hnd : (db.map (fun m => m.id)).Nodup) :
    (matchedMoviesOf db ret).length ≤ ret.length := by
  unfold matchedMoviesOf
  set ids := ret.map Prod.fst with hids
  set f := db.filter (fun m => ids.contains m.id) with hf
  have hsubl : (f.map (fun m => m.id)).Sublist (db.map (fun m => m.id)) :=
    List.Sublist.map _ (List.filter_sublist db)
  have hnodup : (f.map (fun m => m.id)).Nodup := hnd.sublist hsubl
  have hsub : (f.map (fun m => m.id)) ⊆ ids := by
    intro x hx
    rw [List.mem_map] at hx
    obtain ⟨m, hmf, rfl⟩ := hx
    rw [hf, List.mem_filter] at hmf
    simpa using hmf.2
  have hlen : (f.map (fun m => m.id)).length ≤ ids.length :=
    (hnodup.subperm hsub).length_le
  rw [List.length_map] at hlen
  rw [hids, List.length_map] at hlen
  exact hlen

/-- The scored list is no longer than the retrieval result, under distinct
corpus ids. -/
theorem scoredCandidates_length_le (rs : List RatingInput) (db : List DbMovie)
    (ret : List (Int × Rat)) (hnd : (db.map (fun m => m.id)).Nodup) :
    (scoredCandidates rs db ret).length ≤ ret.length := by
  unfold scoredCandidates sortByScoreDesc
  rw [List.length_insertionSort]
  calc (List.filter _ (List.map _ (matchedMoviesOf db ret))).length
      ≤ (List.map (scoreMovie ret (likedGenresOf rs (dbFetchByTitles db
          (rs.map fun r => r.title)))) (matchedMoviesOf db ret)).length :=
        List.length_filter_le _ _
    _ = (matchedMoviesOf db ret).length := List.length_map _ _
    _ ≤ ret.length := matchedMovies_length_le db ret hnd

/-- The scored list is sorted by descending final score. -/
theorem scoredCandidates_sorted (rs : List RatingInput) (db : List DbMovie)
    (ret : List (Int × Rat)) :
    (scoredCandidates rs db ret).Pairwise scoreGE := by
  unfold scoredCandidates sortByScoreDesc
  exact List.sorted_insertionSort scoreGE _

/-- C1: for every candidate that survives exclusion (that is, every member
of the scored list), the blended score equals 0.6 times the similarity
plus 0.2 times the normalized intrinsic score (defaulting to 5 when null,
divided by 10) plus 0.2 times the affinity, where affinity is the number
of the candidate's categories present in the strong-like affinity map
divided by max(1, number of categories) — in particular 0 when the
candidate has no categories or the affinity map is empty. -/
theorem finalScore_blend_formula (rs : List RatingInput) (db : List DbMovie)
    (ret : List (Int × Rat)) (s : ScoredMovie) (hs : s ∈ scoredCandidates rs db ret) :
    s.final_score =
      0.6 * s.similarity + 0.2 * ((s.movie.imdb_rating.getD 5) / 10)
      + 0.2 * ((s.movie.genres.countP (fun g =>
            (likedGenresOf rs (dbFetchByTitles db (rs.map fun r => r.title))).contains g) : Rat)
          / ((max 1 s.movie.genres.length : Nat) : Rat)) := by
  obtain ⟨⟨m, hm, rfl⟩, -⟩ := mem_scoredCandidates hs
  simp only [scoreMovie]
  by_cases hc : (likedGenresOf rs (dbFetchByTitles db (rs.map fun r => r.title))).length > 0
      ∧ m.genres.length > 0
  · rw [if_pos hc]
    have hmax : max 1 m.genres.length = m.genres.length := max_eq_right hc.2
    rw [hmax]
  · rw [if_neg hc]
    have hzero : (m.genres.countP (fun g =>
        (likedGenresOf rs (dbFetchByTitles db (rs.map fun r => r.title))).contains g)) = 0 := by
      rcases Decidable.not_and_iff_or_not.mp hc with h | h
      · have hnil : likedGenresOf rs (dbFetchByTitles db (rs.map fun r => r.title)) = [] :=
          List.length_eq_zero.mp (by omega)
        rw [List.countP_eq_zero]
        intro a _
        rw [hnil]
        simp
      · have hg : m.genres = [] := List.length_eq_zero.mp (by omega)
        rw [hg]
        rfl
    rw [hzero]
    norm_num

/-- Witness for C1 at the sample run: the Gamma candidate sits in the
scored list and its final score 3/5 satisfies the blend formula. -/
theorem finalScore_blend_formula_witness :
    sampleScored ∈ scoredCandidates sampleRatings sampleDb sampleRet ∧
    sampleScored.final_score =
      0.6 * sampleScored.similarity + 0.2 * ((sampleScored.movie.imdb_rating.getD 5) / 10)
      + 0.2 * ((sampleScored.movie.genres.countP (fun g =>
            (likedGenresOf sampleRatings (dbFetchByTitles sampleDb
              (sampleRatings.map fun r => r.title))).contains g) : Rat)
          / ((max 1 sampleScored.movie.genres.length : Nat) : Rat)) :=
  ⟨by with_unfolding_all decide,
   finalScore_blend_formula sampleRatings sampleDb sampleRet sampleScored
     (by with_unfolding_all decide)⟩

/-- C2 counterexample: a run with requested matchCount 0 in which one
scored candidate survives exclusion returns a success carrying one
recommendation, so the output length exceeds the requested matchCount —
the claimed universal length bound fails for nonpositive matchCount. -/
theorem output_length_exceeds_matchCount_cex :
    mc0Req.matchCount = some 0 ∧
    (serveHandler mc0Req sampleDb true (.ok []) sampleRet true .parseFailure).isSuccess
      = true ∧
    (serveHandler mc0Req sampleDb true (.ok []) sampleRet true .parseFailure).recCount
      = 1 :=
  ⟨rfl, by with_unfolding_all decide, by with_unfolding_all decide⟩

/-- C2 (amended to runs whose effective matchCount is at least 1, the
spec's valid range): the returned list has length at most the requested
matchCount and at most the retrieval size (at most 50), is sorted in
descending final_score order (the diversity cap only skips candidates,
never reorders admitted ones), and no primary category — first category,
or the sentinel Unknown — occurs more than 2 times among admitted
items. -/
theorem output_invariants_sorted_capped (req : RequestBody) (db : List DbMovie)
    (ret : List (Int × Rat)) (llm : LlmOutcome) (vec : List Rat) (rs : List RatingInput)
    (h1 : req.ratings = some rs) (h2 : rs ≠ [])
    (hmc : 1 ≤ req.matchCount.getD 10)
    (h50 : ret.length ≤ 50) (hnd : (db.map (fun m => m.id)).Nodup) :
    ∃ recs, serveHandler req db true (.ok vec) ret true llm = .success recs ∧
      (recs.length : Int) ≤ req.matchCount.getD 10 ∧ recs.length ≤ 50 ∧
      recs.Pairwise (fun a b => b.final_score ≤ a.final_score) ∧
      ∀ g : String, recs.countP (fun r => r.genres.headD "Unknown" == g) ≤ 2 := by
  rcases rs with _ | ⟨r, rest⟩
  · exact absurd rfl h2
  · set scored := scoredCandidates (r :: rest) db ret with hscored
    set diverse := diversityLoop (req.matchCount.getD 10) scored (fun _ => 0) [] with hdiv
    have hrun : serveHandler req db true (.ok vec) ret true llm
        = .success (diverse.map (mkRecommendation (explanationMapOf llm))) := by
      simp [serveHandler, h1, hdiv, hscored]
    have hsubl : diverse.Sublist scored := by
      have := diversityLoop_sublist (req.matchCount.getD 10) scored (fun _ => 0) []
      simpa using this
    have hlen1 : (diverse.length : Int) ≤ req.matchCount.getD 10 := by
      apply diversityLoop_length_le
      simpa using hmc
    have hlen2 : diverse.length ≤ 50 :=
      le_trans (le_trans hsubl.length_le (scoredCandidates_length_le _ db ret hnd)) h50
    have hpw : diverse.Pairwise scoreGE :=
      (scoredCandidates_sorted (r :: rest) db ret).sublist hsubl
    have hcnt : ∀ g : String, diverse.countP (fun s => s.primaryGenre == g) ≤ 2 := by
      apply diversityLoop_countP_le
      · intro g
        simp
      · intro g
        omega
    have hpg : ∀ s ∈ diverse, s.primaryGenre = s.movie.genres.headD "Unknown" := by
      intro s hsd
      have hsm := hsubl.mem hsd
      obtain ⟨⟨m, hm, rfl⟩, -⟩ := mem_scoredCandidates hsm
      rfl
    refine ⟨_, hrun, ?_, ?_, ?_, ?_⟩
    · rw [List.length_map]
      exact hlen1
    · rw [List.length_map]
      exact hlen2
    · rw [List.pairwise_map]
      exact hpw.imp (fun h => h)
    · intro g
      rw [List.countP_map]
      calc List.countP ((fun r => r.genres.headD "Unknown" == g) ∘
            mkRecommendation (explanationMapOf llm)) diverse
          = List.countP (fun s => s.primaryGenre == g) diverse := by
            apply List.countP_congr
            intro s hsd
            simp only [Function.comp]
            rw [hpg s hsd]
            rfl
        _ ≤ 2 := hcnt g

/-- Witness for the amended C2 at the sample run (matchCount 2, four
retrieved candidates, distinct corpus ids). -/
theorem output_invariants_sorted_capped_witness :
    sampleReq.ratings = some sampleRatings ∧ sampleRatings ≠ [] ∧
    1 ≤ sampleReq.matchCount.getD 10 ∧ sampleRet.length ≤ 50 ∧
    (sampleDb.map (fun m => m.id)).Nodup ∧
    ∃ recs, serveHandler sampleReq sampleDb true (.ok []) sampleRet true .parseFailure
        = .success recs ∧
      (recs.length : Int) ≤ sampleReq.matchCount.getD 10 ∧ recs.length ≤ 50 ∧
      recs.Pairwise (fun a b => b.final_score ≤ a.final_score) ∧
      ∀ g : String, recs.countP (fun r => r.genres.headD "Unknown" == g) ≤ 2 :=
  ⟨rfl, by decide, by decide, by decide, by decide,
   output_invariants_sorted_capped sampleReq sampleDb sampleRet .parseFailure []
     sampleRatings rfl (by decide) (by decide) (by decide) (by decide)⟩

/-- C3: for every valid run, every output id is the id of a corpus record
fetched for the retrieved match ids, and no output movie_title equals any
rated title when both are lower-cased. -/
theorem output_ids_in_corpus_and_unrated (req : RequestBody) (db : List DbMovie)
    (ret : List (Int × Rat)) (llm : LlmOutcome) (vec : List Rat) (rs : List RatingInput)
    (h1 : req.ratings = some rs) (h2 : rs ≠ []) :
    ∃ recs, serveHandler req db true (.ok vec) ret true llm = .success recs ∧
      ∀ rec ∈ recs,
        (∃ m ∈ db, (ret.map Prod.fst).contains m.id = true ∧ rec.id = m.id) ∧
        ∀ r ∈ rs, lowerStr rec.movie_title ≠ lowerStr r.title := by
  rcases rs with _ | ⟨r0, rest⟩
  · exact absurd rfl h2
  · set scored := scoredCandidates (r0 :: rest) db ret with hscored
    set diverse := diversityLoop (req.matchCount.getD 10) scored (fun _ => 0) [] with hdiv
    have hrun : serveHandler req db true (.ok vec) ret true llm
        = .success (diverse.map (mkRecommendation (explanationMapOf llm))) := by
      simp [serveHandler, h1, hdiv, hscored]
    refine ⟨_, hrun, ?_⟩
    intro rec hrec
    rw [List.mem_map] at hrec
    obtain ⟨s, hsd, rfl⟩ := hrec
    have hsubl : diverse.Sublist scored := by
      have := diversityLoop_sublist (req.matchCount.getD 10) scored (fun _ => 0) []
      simpa using this
    have hsm := hsubl.mem hsd
    obtain ⟨⟨m, hm, rfl⟩, hpred⟩ := mem_scoredCandidates hsm
    constructor
    · rw [matchedMoviesOf, List.mem_filter] at hm
      exact ⟨m, hm.1, by simpa using hm.2, rfl⟩
    · intro r hr heq
      have hmem : lowerStr m.movie_title ∈ ratedTitlesLower (r0 :: rest) := by
        rw [ratedTitlesLower, List.mem_map]
        exact ⟨r, hr, heq.symm⟩
      have hcontains : (ratedTitlesLower (r0 :: rest)).contains
          (lowerStr (scoreMovie ret (likedGenresOf (r0 :: rest) (dbFetchByTitles db
            ((r0 :: rest).map fun r => r.title))) m).movie.movie_title) = true := by
        simpa using hmem
      rw [hpred] at hcontains
      exact Bool.false_ne_true hcontains

/-- Witness for C3 at the sample run. -/
theorem output_ids_in_corpus_and_unrated_witness :
    sampleReq.ratings = some sampleRatings ∧ sampleRatings ≠ [] ∧
    ∃ recs, serveHandler sampleReq sampleDb true (.ok []) sampleRet true .parseFailure
        = .success recs ∧
      ∀ rec ∈ recs,
        (∃ m ∈ sampleDb, (sampleRet.map Prod.fst).contains m.id = true ∧ rec.id = m.id) ∧
        ∀ r ∈ sampleRatings, lowerStr rec.movie_title ≠ lowerStr r.title :=
  ⟨rfl, by decide,
   output_ids_in_corpus_and_unrated sampleReq sampleDb sampleRet .parseFailure []
     sampleRatings rfl (by decide)⟩

/-- C4 counterexample: a rating of 15 (outside the claimed [1,10] range)
on a title that resolves nowhere in the corpus and carries no description
is not rejected: the handler proceeds past validation and returns a
success, not an InvalidInput 400. -/
theorem invalid_rating_not_rejected_cex :
    serveHandler { ratings := some [{ title := "Zed", rating := 15 }] }
      [] true (.ok []) [] true .parseFailure = .success [] ∧
    ¬ ((15 : Rat) ≤ 10) := by
  constructor
  · rfl
  · norm_num

/-- C4 (amended): the handler returns InvalidInput (HTTP 400) exactly when
the ratings field is missing, not an array, or empty; rating values and
descriptions of unresolved titles are never validated, so out-of-range
ratings and unresolved titles with empty or missing descriptions are
accepted and processed. -/
theorem error400_iff_ratings_missing_or_empty (req : RequestBody) (db : List DbMovie)
    (gk : Bool) (embed : EmbedOutcome) (ret : List (Int × Rat)) (lk : Bool)
    (llm : LlmOutcome) :
    (serveHandler req db gk embed ret lk llm).status = 400 ↔
      (req.ratings = none ∨ req.ratings = some []) := by
  rcases req with ⟨ratings, likes, dislikes, mc, desc⟩
  cases ratings with
  | none => simp [serveHandler, Response.status]
  | some rs =>
    cases rs with
    | nil => simp [serveHandler, Response.status]
    | cons r rest =>
      simp only [serveHandler]
      cases gk with
      | false => simp [Response.status]
      | true =>
        cases embed with
        | ok vec => cases lk <;> simp [Response.status]
        | httpError s =>
          by_cases hs : s = 429 <;> simp [hs, Response.status]
        | noVector => simp [Response.status]

/-- C5: when the embedding capability signals throttling (HTTP 429) the
pipeline returns a distinct 429 rate-limited error; when it fails with any
other status, or returns no vector, the pipeline aborts with an error
response carrying a single error-message string — never a partial
recommendation list. -/
theorem embedding_failure_aborts (req : RequestBody) (db : List DbMovie)
    (ret : List (Int × Rat)) (lk : Bool) (llm : LlmOutcome) (rs : List RatingInput)
    (h1 : req.ratings = some rs) (h2 : rs ≠ []) :
    serveHandler req db true (.httpError 429) ret lk llm
        = .error 429 "Rate limit exceeded. Please try again later." ∧
    (∀ s : Nat, s ≠ 429 →
      serveHandler req db true (.httpError s) ret lk llm
        = .error 500 ("Embedding generation failed: " ++ toString s)) ∧
    serveHandler req db true .noVector ret lk llm
        = .error 500 "No embedding returned" := by
  rcases rs with _ | ⟨r, rest⟩
  · exact absurd rfl h2
  · refine ⟨?_, fun s hs => ?_, ?_⟩
    · simp [serveHandler, h1]
    · simp [serveHandler, h1, hs]
    · simp [serveHandler, h1]

/-- Witness for C5 at the sample request. -/
theorem embedding_failure_aborts_witness :
    sampleReq.ratings = some sampleRatings ∧ sampleRatings ≠ [] ∧
    serveHandler sampleReq sampleDb true (.httpError 429) sampleRet true .parseFailure
        = .error 429 "Rate limit exceeded. Please try again later." ∧
    (∀ s : Nat, s ≠ 429 →
      serveHandler sampleReq sampleDb true (.httpError s) sampleRet true .parseFailure
        = .error 500 ("Embedding generation failed: " ++ toString s)) ∧
    serveHandler sampleReq sampleDb true .noVector sampleRet true .parseFailure
        = .error 500 "No embedding returned" :=
  ⟨rfl, by decide,
   embedding_failure_aborts sampleReq sampleDb sampleRet true .parseFailure
     sampleRatings rfl (by decide)⟩

/-- C6: once candidate selection has succeeded, a failing explanation step
— a non-success response from the text-generation capability, or a reply
that fails to parse — still yields a success (200) response in which every
item's explanation is null; it never fails the pipeline. -/
theorem explanation_failure_degrades_to_null (req : RequestBody) (db : List DbMovie)
    (ret : List (Int × Rat)) (vec : List Rat) (rs : List RatingInput) (llm : LlmOutcome)
    (h1 : req.ratings = some rs) (h2 : rs ≠ [])
    (h3 : llm = .parseFailure ∨ llm = .httpFailure) :
    ∃ recs, serveHandler req db true (.ok vec) ret true llm = .success recs ∧
      ∀ rec ∈ recs, rec.explanation = none := by
  rcases rs with _ | ⟨r, rest⟩
  · exact absurd rfl h2
  · have hmap : explanationMapOf llm = [] := by
      rcases h3 with h | h <;> simp [h, explanationMapOf]
    have hrun : serveHandler req db true (.ok vec) ret true llm
        = .success ((diversityLoop (req.matchCount.getD 10)
            (scoredCandidates (r :: rest) db ret) (fun _ => 0) []).map
            (mkRecommendation (explanationMapOf llm))) := by
      simp [serveHandler, h1]
    rw [hmap] at hrun
    refine ⟨_, hrun, ?_⟩
    intro rec hrec
    rw [List.mem_map] at hrec
    obtain ⟨s, -, rfl⟩ := hrec
    rfl

/-- Witness for C6 at the sample run with a failing-to-parse reply. -/
theorem explanation_failure_degrades_to_null_witness :
    sampleReq.ratings = some sampleRatings ∧ sampleRatings ≠ [] ∧
    (LlmOutcome.parseFailure = LlmOutcome.parseFailure ∨
      LlmOutcome.parseFailure = LlmOutcome.httpFailure) ∧
    ∃ recs, serveHandler sampleReq sampleDb true (.ok []) sampleRet true .parseFailure
        = .success recs ∧ ∀ rec ∈ recs, rec.explanation = none :=
  ⟨rfl, by decide, Or.inl rfl,
   explanation_failure_degrades_to_null sampleReq sampleDb sampleRet [] sampleRatings
     .parseFailure rfl (by decide) (Or.inl rfl)⟩

/-- C7 counterexample: the description-mode request (no ratings, one
free-text description and a matchCount) is not served: the handler
rejects it with the 400 ratings-required error instead of returning a
movies list. -/
theorem description_mode_rejected_cex :
    serveHandler
      { ratings := none, description := some "A thrilling sci-fi movie",
        matchCount := some 3 }
      sampleDb true (.ok []) sampleRet true .parseFailure
      = .error 400 "ratings array is required" := rfl

/-- C7 (amended): a request without a ratings field — in particular the
degenerate single-query request carrying only a description and a
matchCount — is always rejected with 400 before any work is done; the
handler revisions in the repository implement no movies-list mode. -/
theorem missing_ratings_request_always_400 (d : Option String)
    (likes dislikes : Option String) (mc : Option Int) (db : List DbMovie) (gk : Bool)
    (embed : EmbedOutcome) (ret : List (Int × Rat)) (lk : Bool) (llm : LlmOutcome) :
    serveHandler
      { ratings := none, likes := likes, dislikes := dislikes,
        matchCount := mc, description := d } db gk embed ret lk llm
      = .error 400 "ratings array is required" := rfl

/-- C8: the pipeline is deterministic — two runs on identical request,
corpus and identical deterministic embedding, retrieval and explanation
stand-ins produce identical ordered output. -/
theorem pipeline_deterministic (req : RequestBody) (db : List DbMovie) (gk : Bool)
    (embed : EmbedOutcome) (ret : List (Int × Rat)) (lk : Bool) (llm : LlmOutcome)
    (r1 r2 : Response)
    (h1 : r1 = serveHandler req db gk embed ret lk llm)
    (h2 : r2 = serveHandler req db gk embed ret lk llm) : r1 = r2 :=
  h1.trans h2.symm

/-- Witness for C8: two sample runs coincide. -/
theorem pipeline_deterministic_witness :
    serveHandler sampleReq sampleDb true (.ok []) sampleRet true .parseFailure
      = serveHandler sampleReq sampleDb true (.ok []) sampleRet true .parseFailure :=
  pipeline_deterministic sampleReq sampleDb true (.ok []) sampleRet true .parseFailure
    _ _ rfl rfl

/-- C10: matchCount is never validated — with any nonpositive requested
matchCount and at least one scored candidate surviving exclusion, the run
still succeeds (no 400) and returns exactly one recommendation, because
the diversity loop checks the length bound only after admitting a
candidate. -/
theorem nonpositive_matchCount_yields_one (req : RequestBody) (db : List DbMovie)
    (ret : List (Int × Rat)) (llm : LlmOutcome) (vec : List Rat) (rs : List RatingInput)
    (mc : Int) (h1 : req.ratings = some rs) (h2 : rs ≠ [])
    (h3 : req.matchCount = some mc) (h4 : mc ≤ 0)
    (h5 : scoredCandidates rs db ret ≠ []) :
    ∃ recs, serveHandler req db true (.ok vec) ret true llm = .success recs ∧
      recs.length = 1 := by
  rcases rs with _ | ⟨r, rest⟩
  · exact absurd rfl h2
  · rcases hsc : scoredCandidates (r :: rest) db ret with _ | ⟨s, tail⟩
    · exact absurd hsc h5
    · have hloop : diversityLoop mc (s :: tail) (fun _ => 0) [] = [s] := by
        simp only [diversityLoop]
        split
        · omega
        · simp only [List.nil_append, List.length_cons, List.length_nil]
          split
          · rfl
          · omega
      have hrun : serveHandler req db true (.ok vec) ret true llm
          = .success ((diversityLoop mc (scoredCandidates (r :: rest) db ret)
              (fun _ => 0) []).map (mkRecommendation (explanationMapOf llm))) := by
        simp [serveHandler, h1, h3]
      rw [hsc, hloop] at hrun
      exact ⟨_, hrun, by simp⟩

/-- Witness for C10 at the sample run with requested matchCount 0. -/
theorem nonpositive_matchCount_yields_one_witness :
    mc0Req.ratings = some sampleRatings ∧ sampleRatings ≠ [] ∧
    mc0Req.matchCount = some 0 ∧ (0 : Int) ≤ 0 ∧
    scoredCandidates sampleRatings sampleDb sampleRet ≠ [] ∧
    ∃ recs, serveHandler mc0Req sampleDb true (.ok []) sampleRet true .parseFailure
        = .success recs ∧ recs.length = 1 :=
  ⟨rfl, by decide, rfl, by decide, by with_unfolding_all decide,
   nonpositive_matchCount_yields_one mc0Req sampleDb sampleRet .parseFailure []
     sampleRatings 0 rfl (by decide) rfl (by decide)
     (by with_unfolding_all decide)⟩

/-- Joining two non-empty parts keeps both, separated once. -/
theorem joinNonempty_two (sep a b : String) (ha : a ≠ "") (hb : b ≠ "") :
    joinNonempty sep [a, b] = a ++ sep ++ b := by
  simp [joinNonempty, List.filter, ha, hb, joinSep]

/-- C9: a feedback click folds the marker into the next request as a
semicolon-joined title-with-categories fragment appended to the likes
free text (for more-like-this) or the dislikes free text (for
less-like-this) of the rebuilt payload for the full re-run, and a title
that has received feedback no longer shows the more/less affordance. -/
theorem feedback_folded_and_affordance_removed (s : ClientState) (rm : List RatedMovie)
    (likes dislikes : String) (mc : Int) (movie : Recommendation)
    (hl : trimStr likes ≠ "") (hd : trimStr dislikes ≠ "")
    (hfm : feedbackText (s.moreLike ++ [⟨movie.movie_title, movie.genres⟩]) ≠ "")
    (hfl : feedbackText (s.lessLike ++ [⟨movie.movie_title, movie.genres⟩]) ≠ "") :
    ((handleFeedback s rm likes dislikes mc movie .more).2.likes
        = some (trimStr likes ++ ". " ++
          joinSep "; " ((s.moreLike ++ [(⟨movie.movie_title, movie.genres⟩ : Feedback)]).map
            (fun f : Feedback => f.title ++ " (" ++ joinSep ", " f.genres ++ ")")))) ∧
    ((handleFeedback s rm likes dislikes mc movie .less).2.dislikes
        = some (trimStr dislikes ++ ". " ++
          joinSep "; " ((s.lessLike ++ [(⟨movie.movie_title, movie.genres⟩ : Feedback)]).map
            (fun f : Feedback => f.title ++ " (" ++ joinSep ", " f.genres ++ ")")))) ∧
    showsFeedbackButtons (handleFeedback s rm likes dislikes mc movie .more).1
      movie.movie_title = false ∧
    showsFeedbackButtons (handleFeedback s rm likes dislikes mc movie .less).1
      movie.movie_title = false := by
  have key : ∀ (t : String) (fs : List Feedback), trimStr t ≠ "" → feedbackText fs ≠ "" →
      (if joinNonempty ". " [trimStr t, feedbackText fs] = "" then none
        else some (joinNonempty ". " [trimStr t, feedbackText fs]))
      = some (trimStr t ++ ". " ++ feedbackText fs) := by
    intro t fs ht hf
    rw [joinNonempty_two _ _ _ ht hf]
    have hne : trimStr t ++ ". " ++ feedbackText fs ≠ "" := by
      intro h
      have hlen := congrArg String.length h
      rw [String.length_append, String.length_append] at hlen
      have h2 : (". ").length = 2 := rfl
      rw [h2] at hlen
      have h0 : ("" : String).length = 0 := rfl
      rw [h0] at hlen
      omega
    rw [if_neg hne]
  refine ⟨?_, ?_, ?_, ?_⟩
  · exact key likes (s.moreLike ++ [⟨movie.movie_title, movie.genres⟩]) hl hfm
  · exact key dislikes (s.lessLike ++ [⟨movie.movie_title, movie.genres⟩]) hd hfl
  · have h1 : (handleFeedback s rm likes dislikes mc movie .more).1
        = ⟨s.moreLike ++ [⟨movie.movie_title, movie.genres⟩], s.lessLike⟩ := rfl
    rw [h1, showsFeedbackButtons, Bool.not_eq_false']
    apply List.elem_iff.mpr
    rw [feedbackTitles]
    apply List.mem_append_left
    rw [List.map_append]
    exact List.mem_append_right _ (by simp)
  · have h1 : (handleFeedback s rm likes dislikes mc movie .less).1
        = ⟨s.moreLike, s.lessLike ++ [⟨movie.movie_title, movie.genres⟩]⟩ := rfl
    rw [h1, showsFeedbackButtons, Bool.not_eq_false']
    apply List.elem_iff.mpr
    rw [feedbackTitles]
    apply List.mem_append_right
    rw [List.map_append]
    exact List.mem_append_right _ (by simp)

/-- Witness for C9: first feedback click on the delivered Gamma item, with
non-empty free-text likes and dislikes. -/
theorem feedback_folded_and_affordance_removed_witness :
    trimStr "twists" ≠ "" ∧ trimStr "gore" ≠ "" ∧
    feedbackText (sampleState.moreLike ++ [⟨sampleRec.movie_title, sampleRec.genres⟩]) ≠ "" ∧
    feedbackText (sampleState.lessLike ++ [⟨sampleRec.movie_title, sampleRec.genres⟩]) ≠ "" ∧
    (((handleFeedback sampleState [] "twists" "gore" 5 sampleRec .more).2.likes
        = some (trimStr "twists" ++ ". " ++
          joinSep "; " ((sampleState.moreLike
              ++ [(⟨sampleRec.movie_title, sampleRec.genres⟩ : Feedback)]).map
            (fun f : Feedback => f.title ++ " (" ++ joinSep ", " f.genres ++ ")")))) ∧
    ((handleFeedback sampleState [] "twists" "gore" 5 sampleRec .less).2.dislikes
        = some (trimStr "gore" ++ ". " ++
          joinSep "; " ((sampleState.lessLike
              ++ [(⟨sampleRec.movie_title, sampleRec.genres⟩ : Feedback)]).map
            (fun f : Feedback => f.title ++ " (" ++ joinSep ", " f.genres ++ ")")))) ∧
    showsFeedbackButtons (handleFeedback sampleState [] "twists" "gore" 5 sampleRec .more).1
      sampleRec.movie_title = false ∧
    showsFeedbackButtons (handleFeedback sampleState [] "twists" "gore" 5 sampleRec .less).1
      sampleRec.movie_title = false) :=
  ⟨by decide, by decide, by decide, by decide,
   feedback_folded_and_affordance_removed sampleState [] "twists" "gore" 5 sampleRec
     (by decide) (by decide) (by decide) (by decide)⟩
